import Mathlib

/-!
Verification of the portfolio analytics aggregation layer of the
quant-finance-dashboard frontend (`src/services/api.ts`).

The embedding models the synchronous data transform that `analyzePortfolio`
and `runStrategy` perform on an already-decoded backend JSON response.
JavaScript numbers are modelled as exact rationals extended with the IEEE
special values `NaN`, `+Infinity`, `-Infinity` (`JsNum`), because the code's
behaviour on missing weights and zero base prices produces exactly those
specials.  JavaScript objects used as string-keyed maps are modelled as
association lists with first-match lookup.
-/

namespace QuantDashboard

/-- Key lookup in a JavaScript object used as a string-keyed map: the first
binding for the key, `none` when the key is absent (`undefined`). -/
def alookup {α : Type} : List (String × α) → String → Option α
  | [], _ => none
  | (k, v) :: rest, s => if k = s then some v else alookup rest s

/-- A JavaScript number: an exact rational or one of the IEEE specials that
the aggregation code can actually produce. -/
inductive JsNum where
  | num : ℚ → JsNum
  | nan : JsNum
  | inf : JsNum
  | ninf : JsNum
deriving DecidableEq, Repr

/-- JavaScript `+` on numbers (the cases reachable in this code). -/
def jsAdd : JsNum → JsNum → JsNum
  | JsNum.num a, JsNum.num b => JsNum.num (a + b)
  | JsNum.nan, _ => JsNum.nan
  | _, JsNum.nan => JsNum.nan
  | JsNum.inf, JsNum.ninf => JsNum.nan
  | JsNum.ninf, JsNum.inf => JsNum.nan
  | JsNum.inf, _ => JsNum.inf
  | _, JsNum.inf => JsNum.inf
  | JsNum.ninf, _ => JsNum.ninf
  | _, JsNum.ninf => JsNum.ninf

/-- JavaScript `*` on numbers (the cases reachable in this code). -/
def jsMul : JsNum → JsNum → JsNum
  | JsNum.num a, JsNum.num b => JsNum.num (a * b)
  | JsNum.nan, _ => JsNum.nan
  | _, JsNum.nan => JsNum.nan
  | JsNum.inf, JsNum.num b =>
      if b = 0 then JsNum.nan else if 0 < b then JsNum.inf else JsNum.ninf
  | JsNum.num a, JsNum.inf =>
      if a = 0 then JsNum.nan else if 0 < a then JsNum.inf else JsNum.ninf
  | JsNum.ninf, JsNum.num b =>
      if b = 0 then JsNum.nan else if 0 < b then JsNum.ninf else JsNum.inf
  | JsNum.num a, JsNum.ninf =>
      if a = 0 then JsNum.nan else if 0 < a then JsNum.ninf else JsNum.inf
  | JsNum.inf, JsNum.inf => JsNum.inf
  | JsNum.inf, JsNum.ninf => JsNum.ninf
  | JsNum.ninf, JsNum.inf => JsNum.ninf
  | JsNum.ninf, JsNum.ninf => JsNum.inf

/-- JavaScript `/` on numbers (the cases reachable in this code):
division by zero yields an infinity (or `NaN` for `0 / 0`). -/
def jsDiv : JsNum → JsNum → JsNum
  | JsNum.num a, JsNum.num b =>
      if b = 0 then
        if a = 0 then JsNum.nan else if 0 < a then JsNum.inf else JsNum.ninf
      else JsNum.num (a / b)
  | JsNum.nan, _ => JsNum.nan
  | _, JsNum.nan => JsNum.nan
  | JsNum.inf, JsNum.num _ => JsNum.inf
  | JsNum.ninf, JsNum.num _ => JsNum.ninf
  | JsNum.num _, JsNum.inf => JsNum.num 0
  | JsNum.num _, JsNum.ninf => JsNum.num 0
  | _, _ => JsNum.nan

/-- One `{date, close}` element of a backend price history
(`histories` entries in the portfolio-metrics response). -/
structure PricePoint where
  date : String
  close : ℚ
deriving DecidableEq, Repr

/-- The `histories: Record<string, Array<{date, close}>>` map as an
association list. -/
abbrev Histories := List (String × List PricePoint)

/-- The `weights: Record<string, number>` map as an association list. -/
abbrev Weights := List (String × ℚ)

/-- The `correlation_matrix: Record<string, Record<string, number>>` map. -/
abbrev CorrMatrix := List (String × List (String × ℚ))

/-- The five-field metrics record the backend returns both per symbol
(`individual_metrics`) and for the portfolio (`portfolio_metrics`). -/
structure MetricsIn where
  total_return : ℚ
  annualized_return : ℚ
  volatility : ℚ
  sharpe_ratio : ℚ
  max_drawdown : ℚ
deriving DecidableEq, Repr

/-- One row of a chart series: `{date, [symbol]: value, portfolio: value}`.
`symbolVals` holds the per-symbol keys in insertion order. -/
structure ChartPoint where
  date : String
  symbolVals : List (String × JsNum)
  portfolio : JsNum
deriving DecidableEq, Repr

/-- The decoded backend response consumed by `analyzePortfolio`
(`/calculate/portfolio-metrics`).  `weights = none` models a JSON `null` or
absent field (the code applies `data.weights || {}`); `chart_data = none`
models the optional field being absent (the code applies
`(data as any).chart_data || fallback`). -/
structure BackendResponse where
  correlation_matrix : CorrMatrix
  portfolio_volatility : ℚ
  diversification_ratio : ℚ
  individual_metrics : List (String × MetricsIn)
  portfolio_metrics : MetricsIn
  weights : Option Weights
  histories : Histories
  chart_data : Option (List ChartPoint)
deriving DecidableEq, Repr

/-- One element of the flattened `correlation_matrix` array of the result. -/
structure CorrelationEntry where
  asset1 : String
  asset2 : String
  correlation : ℚ
deriving DecidableEq, Repr

/-- Per-symbol metrics record of the assembled `PortfolioResult`. -/
structure IndivOut where
  total_return : ℚ
  annualized_return : ℚ
  volatility : ℚ
  sharpe_ratio : ℚ
  max_drawdown : ℚ
  cumulative_returns : List ℚ
deriving DecidableEq, Repr

/-- Portfolio-level metrics record of the assembled `PortfolioResult`. -/
structure PortfolioMetricsOut where
  total_return : ℚ
  annualized_return : ℚ
  volatility : ℚ
  sharpe_ratio : ℚ
  max_drawdown : ℚ
  diversification_ratio : ℚ
deriving DecidableEq, Repr

/-- The `PortfolioResult` assembled and returned by `analyzePortfolio`. -/
structure PortfolioResult where
  symbols : List String
  weighting_strategy : String
  rebalance_frequency : String
  metrics : PortfolioMetricsOut
  weights : Weights
  correlation_matrix : List CorrelationEntry
  chart_data : List ChartPoint
  individual_metrics : List (String × IndivOut)
deriving DecidableEq, Repr

/-- The expression `data.correlation_matrix[asset1]?.[asset2] || (asset1 === asset2 ? 1 : 0)`:
an optional-chaining lookup, with JS `||` falling back to the diagonal
default whenever the looked-up value is absent or `0` (falsy). -/
def corrLookupJs (m : CorrMatrix) (a1 a2 : String) : ℚ :=
  ((alookup m a1).bind (fun row => alookup row a2)).elim
    (if a1 = a2 then 1 else 0)
    (fun v => if v = 0 then (if a1 = a2 then 1 else 0) else v)

/-- The nested `for (const asset1 of symbols) for (const asset2 of symbols)`
loop that pushes one `{asset1, asset2, correlation}` entry per ordered pair. -/
def buildCorrelationArray (symbols : List String) (m : CorrMatrix) :
    List CorrelationEntry :=
  symbols.flatMap (fun a1 =>
    symbols.map (fun a2 => ⟨a1, a2, corrLookupJs m a1 a2⟩))

/-- The read `weights[symbol]` as a JS number: a missing key is `undefined`,
and arithmetic on `undefined` coerces it to `NaN`. -/
def weightJs (ws : Weights) (s : String) : JsNum :=
  (alookup ws s).elim JsNum.nan JsNum.num

/-- One iteration of the `for (const symbol of symbols)` loop inside the
fallback chart computation, guarded by `if (history && history[0] && history[i])`:
on success it records `point[symbol] = normalizedValue` and runs
`portfolioValue += normalizedValue * weights[symbol]`. -/
def fbStep (hs : Histories) (ws : Weights) (i : Nat)
    (acc : List (String × JsNum) × JsNum) (s : String) :
    List (String × JsNum) × JsNum :=
  (alookup hs s).elim acc (fun history =>
    (history.head?).elim acc (fun p0 =>
      (history[i]?).elim acc (fun pi =>
        let nv := jsDiv (JsNum.num pi.close) (JsNum.num p0.close)
        (acc.1 ++ [(s, nv)], jsAdd acc.2 (jsMul nv (weightJs ws s))))))

/-- The body of `dates.map((date, i) => ...)` in the fallback chart
computation: one pass of `fbStep` over `symbols`, starting from
`portfolioValue = 0`. -/
def fallbackPoint (symbols : List String) (hs : Histories) (ws : Weights)
    (date : String) (i : Nat) : ChartPoint :=
  let r := symbols.foldl (fbStep hs ws i) ([], JsNum.num 0)
  ⟨date, r.1, r.2⟩

/-- The fallback chart computation (`api.ts` lines 341-360): the date axis is
`data.histories[firstSymbol]?.map(d => d.date) || []` and each date index is
mapped through `fallbackPoint`. -/
def fallbackChart (symbols : List String) (hs : Histories) (ws : Weights) :
    List ChartPoint :=
  let dates : List String :=
    (symbols.head?).elim [] (fun first =>
      (alookup hs first).elim [] (fun h => h.map (fun p => p.date)))
  dates.enum.map (fun di => fallbackPoint symbols hs ws di.2 di.1)

/-- The `for (const symbol of symbols)` loop that copies
`data.individual_metrics[symbol]` when present (adding an empty
`cumulative_returns`), and silently skips the symbol otherwise. -/
def buildIndividualMetrics (symbols : List String)
    (im : List (String × MetricsIn)) : List (String × IndivOut) :=
  symbols.filterMap (fun s =>
    (alookup im s).map (fun m =>
      (s, ⟨m.total_return, m.annualized_return, m.volatility, m.sharpe_ratio,
           m.max_drawdown, []⟩)))

/-- The synchronous transform `analyzePortfolio` applies to a successfully
decoded backend response (`api.ts` lines 303-378). -/
def analyzePortfolioCore (symbols : List String)
    (weighting rebalance : String) (data : BackendResponse) : PortfolioResult :=
  let correlationArray := buildCorrelationArray symbols data.correlation_matrix
  let weights := data.weights.getD []
  let individualMetrics := buildIndividualMetrics symbols data.individual_metrics
  let chartData :=
    (data.chart_data).elim (fallbackChart symbols data.histories weights)
      (fun cd => cd)
  { symbols := symbols
    weighting_strategy := weighting
    rebalance_frequency := rebalance
    metrics :=
      ⟨data.portfolio_metrics.total_return,
       data.portfolio_metrics.annualized_return,
       data.portfolio_metrics.volatility,
       data.portfolio_metrics.sharpe_ratio,
       data.portfolio_metrics.max_drawdown,
       data.diversification_ratio⟩
    weights := weights
    correlation_matrix := correlationArray
    chart_data := chartData
    individual_metrics := individualMetrics }

/-- Metrics block of the single-asset strategy backend response. -/
structure StrategyMetrics where
  total_return : ℚ
  annualized_return : ℚ
  volatility : ℚ
  sharpe_ratio : ℚ
  max_drawdown : ℚ
  win_rate : ℚ
  num_trades : ℤ
deriving DecidableEq, Repr

/-- One `{date, price, strategy}` chart row of the strategy response. -/
structure StrategyChartPoint where
  date : String
  price : ℚ
  strategy : String
deriving DecidableEq, Repr

/-- The decoded backend response consumed by `runStrategy`. -/
structure StrategyData where
  symbol : String
  strategy : String
  metrics : StrategyMetrics
  chart_data : List StrategyChartPoint
deriving DecidableEq, Repr

/-- The `StrategyResult` returned by `runStrategy`. -/
structure StrategyResult where
  symbol : String
  strategy : String
  metrics : StrategyMetrics
  chart_data : List StrategyChartPoint
deriving DecidableEq, Repr

/-- The transform `runStrategy` applies to a decoded strategy response
(`api.ts` lines 246-259): all metrics copied through except
`max_drawdown`, which is passed through `Math.abs`. -/
def runStrategyCore (data : StrategyData) : StrategyResult :=
  { symbol := data.symbol
    strategy := data.strategy
    metrics :=
      ⟨data.metrics.total_return, data.metrics.annualized_return,
       data.metrics.volatility, data.metrics.sharpe_ratio,
       |data.metrics.max_drawdown|, data.metrics.win_rate,
       data.metrics.num_trades⟩
    chart_data := data.chart_data }

/-- Spec-side weight lookup: "if a symbol's weight is missing it is treated
as 0" (spec section 3, WeightVector). -/
def specWeight (ws : Weights) (s : String) : ℚ :=
  (alookup ws s).getD 0

/-- Spec-side per-symbol chart entry at date index `i`: present exactly when
`histories[s]` exists and has an element at index `i`, carrying the exact
rational `histories[s][i].close / histories[s][0].close`. -/
def specEntry (hs : Histories) (i : Nat) (s : String) :
    Option (String × JsNum) :=
  (alookup hs s).bind (fun h =>
    (h.head?).bind (fun p0 =>
      h[i]?.map (fun pi => (s, JsNum.num (pi.close / p0.close)))))

/-- Spec-side portfolio accumulation step at date index `i`:
`portfolioValue += normalizedValue * weights[s]` with a missing weight
treated as `0` and a missing history index contributing `0`. -/
def specStep (hs : Histories) (ws : Weights) (i : Nat) (acc : ℚ)
    (s : String) : ℚ :=
  (alookup hs s).elim acc (fun h =>
    (h.head?).elim acc (fun p0 =>
      h[i]?.elim acc (fun pi => acc + (pi.close / p0.close) * specWeight ws s)))

/-- Spec-side reference chart point, following the spec's words (section
4.2, resolveChartSeries step 2): for every symbol with a history entry at
index `i`, the normalized value `histories[s][i].close / histories[s][0].close`
is recorded and `normalizedValue * weights[s]` is accumulated; symbols with a
missing index contribute 0. -/
def specStaticPoint (symbols : List String) (hs : Histories) (ws : Weights)
    (date : String) (i : Nat) : ChartPoint :=
  { date := date
    symbolVals := symbols.filterMap (specEntry hs i)
    portfolio := JsNum.num (symbols.foldl (specStep hs ws i) 0) }

/-- Spec-side reference series: the static-weight fallback computation as the
spec states it (date axis from the first symbol's history, one
`specStaticPoint` per date index). -/
def specStaticWeightSeries (symbols : List String) (hs : Histories)
    (ws : Weights) : List ChartPoint :=
  let dates : List String :=
    (symbols.head?).elim [] (fun first =>
      (alookup hs first).elim [] (fun h => h.map (fun p => p.date)))
  dates.enum.map (fun di => specStaticPoint symbols hs ws di.2 di.1)

/-! ## Concrete backend responses used as test inputs -/

/-- A default metrics record for concrete test inputs. -/
def mZero : MetricsIn := ⟨0, 0, 0, 0, 0⟩

/-- Backend response with a present but empty `chart_data` array, and a
one-symbol history that would make the fallback series non-empty. -/
def respC1empty : BackendResponse :=
  { correlation_matrix := []
    portfolio_volatility := 0
    diversification_ratio := 0
    individual_metrics := []
    portfolio_metrics := mZero
    weights := some [("A", 1)]
    histories := [("A", [⟨"d0", 10⟩, ⟨"d1", 11⟩])]
    chart_data := some [] }

/-- Backend response with a present one-point `chart_data`. -/
def respC1some : BackendResponse :=
  { correlation_matrix := []
    portfolio_volatility := 0
    diversification_ratio := 0
    individual_metrics := []
    portfolio_metrics := mZero
    weights := some [("A", 1)]
    histories := [("A", [⟨"d0", 10⟩, ⟨"d1", 11⟩])]
    chart_data := some [⟨"d9", [("A", JsNum.num 1)], JsNum.num 1⟩] }

/-- Backend response whose history for `A` has a zero base price
(`history[0].close == 0`) and no `chart_data`. -/
def respC3zero : BackendResponse :=
  { correlation_matrix := []
    portfolio_volatility := 0
    diversification_ratio := 0
    individual_metrics := []
    portfolio_metrics := mZero
    weights := some [("A", 1)]
    histories := [("A", [⟨"d0", 0⟩, ⟨"d1", 5⟩])]
    chart_data := none }

/-- Backend response whose history for `B` is the empty series. -/
def respC3empty : BackendResponse :=
  { correlation_matrix := []
    portfolio_volatility := 0
    diversification_ratio := 0
    individual_metrics := []
    portfolio_metrics := mZero
    weights := some [("A", 1), ("B", 0)]
    histories := [("A", [⟨"d0", 10⟩]), ("B", [])]
    chart_data := none }

/-- Backend response where `B` has a history entry but is absent from the
`weights` map. -/
def respC6 : BackendResponse :=
  { correlation_matrix := []
    portfolio_volatility := 0
    diversification_ratio := 0
    individual_metrics := []
    portfolio_metrics := mZero
    weights := some [("A", 1)]
    histories := [("A", [⟨"d0", 10⟩]), ("B", [⟨"d0", 20⟩])]
    chart_data := none }

/-- Single-asset strategy response with a negative `max_drawdown` of -12.5. -/
def sdataC8 : StrategyData :=
  { symbol := "AAPL"
    strategy := "momentum"
    metrics := ⟨10, 10, 5, 1, -25/2, 60, 12⟩
    chart_data := [] }

/-- Portfolio response with a negative portfolio-level `max_drawdown` of -8. -/
def respC8 : BackendResponse :=
  { correlation_matrix := []
    portfolio_volatility := 0
    diversification_ratio := 2
    individual_metrics := []
    portfolio_metrics := ⟨12, 12, 7, 1, -8⟩
    weights := some []
    histories := []
    chart_data := none }

/-! ## Shared helper lemmas -/

/-- The `chart_data` field of the assembled result is the backend array when
present, and the fallback computation otherwise. -/
theorem chart_data_def (symbols : List String) (w r : String)
    (data : BackendResponse) :
    (analyzePortfolioCore symbols w r data).chart_data =
      (data.chart_data).elim
        (fallbackChart symbols data.histories (data.weights.getD []))
        (fun cd => cd) :=
  rfl

/-- The `individual_metrics` field of the assembled result is the projection
loop's output. -/
theorem individual_metrics_def (symbols : List String) (w r : String)
    (data : BackendResponse) :
    (analyzePortfolioCore symbols w r data).individual_metrics =
      buildIndividualMetrics symbols data.individual_metrics :=
  rfl

/-! ## Claim C1 -/

/-- C1, counterexample: with `chart_data` present but empty, the code
returns the empty array unchanged (empty arrays are truthy in JS), while the
fallback series for the same response would be non-empty — so "whenever
chart_data is absent or empty, the static-weight fallback series is computed
instead" is false. -/
theorem C1_counterexample :
    respC1empty.chart_data = some [] ∧
    (analyzePortfolioCore ["A"] "equal_weight" "monthly" respC1empty).chart_data = [] ∧
    fallbackChart ["A"] respC1empty.histories (respC1empty.weights.getD []) ≠ [] := by
  refine ⟨rfl, rfl, ?_⟩
  simp [fallbackChart, respC1empty, alookup]

/-- C1, amended: the backend-supplied `chart_data` is returned unchanged if
and only if it is present (even when empty); the static-weight fallback is
computed exactly when `chart_data` is absent. -/
theorem C1_chart_precedence (symbols : List String) (w r : String)
    (data : BackendResponse) :
    (∀ cd, data.chart_data = some cd →
      (analyzePortfolioCore symbols w r data).chart_data = cd) ∧
    (data.chart_data = none →
      (analyzePortfolioCore symbols w r data).chart_data =
        fallbackChart symbols data.histories (data.weights.getD [])) := by
  constructor
  · intro cd h
    rw [chart_data_def, h]
    rfl
  · intro h
    rw [chart_data_def, h]
    rfl

/-- C1, witness: a present one-point `chart_data` is surfaced unchanged. -/
theorem C1_chart_precedence_witness :
    (analyzePortfolioCore ["A"] "equal_weight" "monthly" respC1some).chart_data =
      [⟨"d9", [("A", JsNum.num 1)], JsNum.num 1⟩] :=
  (C1_chart_precedence ["A"] "equal_weight" "monthly" respC1some).1 _ rfl

/-! ## Claim C3 -/

/-- C3, evaluation at the failing inputs: no `DataError` exists in this
transform.  A zero base price produces `NaN` (for `0 / 0`) and `Infinity`
(for `5 / 0`) values that flow straight into the chart series, and an empty
history is silently skipped — in both cases `analyzePortfolio` returns
normally instead of failing fast. -/
theorem C3_no_data_error :
    (analyzePortfolioCore ["A"] "equal_weight" "monthly" respC3zero).chart_data =
      [⟨"d0", [("A", JsNum.nan)], JsNum.nan⟩,
       ⟨"d1", [("A", JsNum.inf)], JsNum.inf⟩] ∧
    (analyzePortfolioCore ["A", "B"] "equal_weight" "monthly" respC3empty).chart_data =
      [⟨"d0", [("A", JsNum.num 1)], JsNum.num 1⟩] := by
  constructor <;>
    simp [analyzePortfolioCore, fallbackChart, fallbackPoint, fbStep, weightJs,
      jsDiv, jsAdd, jsMul, respC3zero, respC3empty, alookup, List.enum,
      List.enumFrom]

/-! ## Claim C6 -/

/-- C6, evaluation at the failing input: a symbol with a history entry but
no entry in `weights` drives `portfolioValue += normalizedValue * undefined`,
so the portfolio value of that chart point is `NaN`, not a well-defined
number (the computation still returns normally, without throwing). -/
theorem C6_missing_weight_nan :
    (analyzePortfolioCore ["A", "B"] "equal_weight" "monthly" respC6).chart_data =
      [⟨"d0", [("A", JsNum.num 1), ("B", JsNum.num 1)], JsNum.nan⟩] := by
  simp [analyzePortfolioCore, fallbackChart, fallbackPoint, fbStep, weightJs,
    jsDiv, jsAdd, jsMul, respC6, alookup, List.enum, List.enumFrom]

/-! ## Claim C8 -/

/-- C8: the single-asset path surfaces `Math.abs(max_drawdown)` while the
portfolio path passes `portfolio_metrics.max_drawdown` through unchanged; in
particular -12.5 surfaces as 12.5 on the strategy path and -8 stays -8 on
the portfolio path. -/
theorem C8_max_drawdown_asymmetry (sdata : StrategyData)
    (symbols : List String) (w r : String) (pdata : BackendResponse) :
    (runStrategyCore sdata).metrics.max_drawdown = |sdata.metrics.max_drawdown| ∧
    (analyzePortfolioCore symbols w r pdata).metrics.max_drawdown =
      pdata.portfolio_metrics.max_drawdown ∧
    (runStrategyCore sdataC8).metrics.max_drawdown = 25/2 ∧
    (analyzePortfolioCore ["A", "B"] "equal_weight" "monthly" respC8).metrics.max_drawdown = -8 := by
  refine ⟨rfl, rfl, ?_, rfl⟩
  show |(-25 : ℚ)/2| = 25/2
  norm_num

/-! ## Claim C4 -/

/-- Partial correlation mapping that supplies the value 1/2 for the
diagonal pair (A, A). -/
def cmC4 : CorrMatrix := [("A", [("A", 1/2)])]

/-- C4, counterexample: a supplied non-zero diagonal value is passed
through by `v || (a1 === a2 ? 1 : 0)` instead of being forced to 1 — the
(A, A) entry carries 1/2, so "assigns correlation 1 to every diagonal
entry, regardless of any supplied value" is false. -/
theorem C4_counterexample :
    buildCorrelationArray ["A", "B"] cmC4 =
      [⟨"A", "A", 1/2⟩, ⟨"A", "B", 0⟩, ⟨"B", "A", 0⟩, ⟨"B", "B", 1⟩] ∧
    ((1 : ℚ)/2) ≠ 1 := by
  constructor
  · simp [buildCorrelationArray, corrLookupJs, cmC4, alookup]
  · norm_num

/-- C4, amended: a diagonal entry equals 1 whenever the supplied value for
that pair is absent or 0 (JS falsy); a non-zero supplied diagonal value is
passed through unchanged. -/
theorem C4_diagonal (symbols : List String) (cm : CorrMatrix)
    (e : CorrelationEntry) (he : e ∈ buildCorrelationArray symbols cm)
    (hd : e.asset1 = e.asset2) :
    e.correlation =
      ((alookup cm e.asset1).bind (fun row => alookup row e.asset2)).elim 1
        (fun v => if v = 0 then 1 else v) := by
  simp only [buildCorrelationArray, List.mem_flatMap, List.mem_map] at he
  obtain ⟨a1, _, a2, _, rfl⟩ := he
  simp only at hd
  subst hd
  simp [corrLookupJs]

/-- C4, witness: the (B, B) pair, absent from the mapping, gets 1. -/
theorem C4_diagonal_witness :
    CorrelationEntry.correlation ⟨"B", "B", 1⟩ =
      ((alookup cmC4 "B").bind (fun row => alookup row "B")).elim 1
        (fun v => if v = 0 then 1 else v) :=
  C4_diagonal ["A", "B"] cmC4 ⟨"B", "B", 1⟩ (by decide) rfl

/-! ## Claim C10 -/

/-- C10: with `chart_data` absent and the first symbol's history missing or
empty, the fallback date axis is empty and the result carries an empty
chart series, returning normally. -/
theorem C10_empty_first_history (symbols : List String) (w r : String)
    (data : BackendResponse) (first : String)
    (hf : symbols.head? = some first)
    (hh : ∀ h, alookup data.histories first = some h → h = [])
    (hcd : data.chart_data = none) :
    (analyzePortfolioCore symbols w r data).chart_data = [] := by
  rw [chart_data_def, hcd]
  show fallbackChart symbols data.histories (data.weights.getD []) = []
  simp only [fallbackChart, hf, Option.elim_some]
  cases hl : alookup data.histories first with
  | none => simp
  | some h =>
      have he := hh h hl
      subst he
      simp

/-- Backend response with no `chart_data` whose first requested symbol has
no entry in `histories`. -/
def respC10 : BackendResponse :=
  { correlation_matrix := []
    portfolio_volatility := 0
    diversification_ratio := 0
    individual_metrics := []
    portfolio_metrics := mZero
    weights := some []
    histories := [("B", [⟨"d0", 1⟩])]
    chart_data := none }

/-- C10, witness: requesting [A, B] when only B has a history yields an
empty chart series. -/
theorem C10_empty_first_history_witness :
    (analyzePortfolioCore ["A", "B"] "equal_weight" "monthly" respC10).chart_data = [] :=
  C10_empty_first_history ["A", "B"] "equal_weight" "monthly" respC10 "A" rfl
    (fun h hl => by simp [respC10, alookup] at hl) rfl

/-! ## Claim C9 -/

/-- Key lemma for the per-symbol metrics projection: a symbol is findable in
the projected map exactly when it is requested and present in the backend
map. -/
theorem alookup_buildIndividualMetrics_isSome (symbols : List String)
    (im : List (String × MetricsIn)) (s : String) :
    (alookup (buildIndividualMetrics symbols im) s).isSome ↔
      (s ∈ symbols ∧ (alookup im s).isSome) := by
  induction symbols with
  | nil => simp [buildIndividualMetrics, alookup]
  | cons a t ih =>
      cases him : alookup im a with
      | none =>
          have hstep : buildIndividualMetrics (a :: t) im =
              buildIndividualMetrics t im := by
            simp [buildIndividualMetrics, him]
          rw [hstep, ih]
          by_cases hsa : s = a
          · subst hsa
            simp [him]
          · simp [List.mem_cons, hsa]
      | some m =>
          have hstep : buildIndividualMetrics (a :: t) im =
              (a, ⟨m.total_return, m.annualized_return, m.volatility,
                   m.sharpe_ratio, m.max_drawdown, []⟩) ::
                buildIndividualMetrics t im := by
            simp [buildIndividualMetrics, him]
          rw [hstep]
          by_cases hsa : a = s
          · subst hsa
            simp [alookup, him]
          · have hsa2 : ¬s = a := fun h => hsa h.symm
            simp [alookup, hsa, hsa2, ih, List.mem_cons]

/-- C9: the per-symbol metrics section contains exactly the symbols that
are both requested and present in the backend's `individual_metrics`;
requested-but-absent symbols are omitted without error, and every key of
the section comes from the SymbolSet. -/
theorem C9_metrics_projection (symbols : List String) (w r : String)
    (data : BackendResponse) (s : String) :
    ((alookup ((analyzePortfolioCore symbols w r data).individual_metrics) s).isSome ↔
      (s ∈ symbols ∧ (alookup data.individual_metrics s).isSome)) ∧
    (∀ p ∈ (analyzePortfolioCore symbols w r data).individual_metrics,
      p.1 ∈ symbols) := by
  rw [individual_metrics_def]
  constructor
  · exact alookup_buildIndividualMetrics_isSome symbols data.individual_metrics s
  · intro p hp
    simp only [buildIndividualMetrics, List.mem_filterMap] at hp
    obtain ⟨a, ha, hfa⟩ := hp
    obtain ⟨m, _, rfl⟩ := Option.map_eq_some'.mp hfa
    exact ha

/-- Backend response with per-symbol metrics supplied for both requested
symbols. -/
def respC9 : BackendResponse :=
  { correlation_matrix := []
    portfolio_volatility := 0
    diversification_ratio := 0
    individual_metrics := [("A", ⟨1, 1, 1, 1, -1⟩), ("B", ⟨2, 2, 2, 2, -2⟩)]
    portfolio_metrics := mZero
    weights := some []
    histories := []
    chart_data := some [] }

/-- C9, witness: a requested symbol present in the backend metrics is
findable in the projected section. -/
theorem C9_metrics_projection_witness :
    (alookup ((analyzePortfolioCore ["A", "B"] "equal_weight" "monthly"
      respC9).individual_metrics) "B").isSome :=
  ((C9_metrics_projection ["A", "B"] "equal_weight" "monthly" respC9 "B").1).mpr
    ⟨by decide, by simp [respC9, alookup]⟩

/-! ## Claim C7 -/

/-- A key absent from both halves of an appended association list is absent
from the whole. -/
theorem alookup_append_none {α : Type} (L M : List (String × α)) (s : String)
    (hL : alookup L s = none) (hM : alookup M s = none) :
    alookup (L ++ M) s = none := by
  induction L with
  | nil => simpa using hM
  | cons kv rest ih =>
      obtain ⟨k, v⟩ := kv
      by_cases hk : k = s
      · simp [alookup, hk] at hL
      · simp only [List.cons_append, alookup, if_neg hk] at hL ⊢
        exact ih hL

/-- A symbol with no entry in `histories` is never added to a fallback
chart point's per-symbol values by the symbol loop. -/
theorem fb_fold_symbolVals_none (hs : Histories) (ws : Weights) (i : Nat)
    (s : String) (hhist : alookup hs s = none) :
    ∀ (syms : List String) (L : List (String × JsNum)) (q : JsNum),
      alookup L s = none →
      alookup ((syms.foldl (fbStep hs ws i) (L, q)).1) s = none := by
  intro syms
  induction syms with
  | nil => intro L q hL; simpa using hL
  | cons a t ih =>
      intro L q hL
      simp only [List.foldl_cons]
      cases hla : alookup hs a with
      | none =>
          simp only [fbStep, hla, Option.elim_none]
          exact ih _ _ hL
      | some h =>
          cases hh : h.head? with
          | none =>
              simp only [fbStep, hla, hh, Option.elim_some, Option.elim_none]
              exact ih _ _ hL
          | some p0 =>
              cases hg : h[i]? with
              | none =>
                  simp only [fbStep, hla, hh, hg, Option.elim_some,
                    Option.elim_none]
                  exact ih _ _ hL
              | some pi =>
                  simp only [fbStep, hla, hh, hg, Option.elim_some]
                  apply ih
                  apply alookup_append_none _ _ _ hL
                  have hne : a ≠ s := by
                    rintro rfl
                    rw [hla] at hhist
                    exact Option.noConfusion hhist
                  simp [alookup, hne]

/-- C7, amended: a symbol that is requested but entirely absent from both
`histories` and `individual_metrics` is silently omitted — it is not a key
of the per-symbol metrics section and appears in no fallback chart point —
and `analyzePortfolio` returns a normal result instead of raising any
error. -/
theorem C7_silent_omission (symbols : List String) (w r : String)
    (data : BackendResponse) (s : String)
    (h1 : alookup data.histories s = none)
    (h2 : alookup data.individual_metrics s = none) :
    alookup ((analyzePortfolioCore symbols w r data).individual_metrics) s = none ∧
    (data.chart_data = none →
      ∀ pt ∈ (analyzePortfolioCore symbols w r data).chart_data,
        alookup pt.symbolVals s = none) := by
  constructor
  · rw [individual_metrics_def]
    cases hal : alookup (buildIndividualMetrics symbols data.individual_metrics) s with
    | none => rfl
    | some v =>
        have hsome : (alookup (buildIndividualMetrics symbols
            data.individual_metrics) s).isSome := by
          rw [hal]; rfl
        have hmem :=
          (alookup_buildIndividualMetrics_isSome symbols
            data.individual_metrics s).mp hsome
        rw [h2] at hmem
        exact absurd hmem.2 (by simp)
  · intro hcd pt hpt
    rw [chart_data_def, hcd] at hpt
    simp only [Option.elim_none, fallbackChart, List.mem_map] at hpt
    obtain ⟨di, _, rfl⟩ := hpt
    exact fb_fold_symbolVals_none data.histories (data.weights.getD []) di.1
      s h1 symbols [] (JsNum.num 0) rfl

/-- Backend response for the C7 scenario: symbol B is requested but absent
from both `histories` and `individual_metrics`. -/
def respC7 : BackendResponse :=
  { correlation_matrix := [("A", [("A", 1)])]
    portfolio_volatility := 0
    diversification_ratio := 3/2
    individual_metrics := [("A", ⟨5, 6, 7, 1, -3⟩)]
    portfolio_metrics := ⟨1, 2, 3, 4, -5⟩
    weights := some [("A", 1)]
    histories := [("A", [⟨"d0", 10⟩, ⟨"d1", 20⟩])]
    chart_data := none }

/-- C7, counterexample: at a response where B is absent from both maps the
transform returns a complete, well-defined `PortfolioResult` — no
`DataError` is raised anywhere in this code path (the transform has no
error exit at all), contradicting the claim. -/
theorem C7_counterexample :
    analyzePortfolioCore ["A", "B"] "equal_weight" "monthly" respC7 =
      { symbols := ["A", "B"]
        weighting_strategy := "equal_weight"
        rebalance_frequency := "monthly"
        metrics := ⟨1, 2, 3, 4, -5, 3/2⟩
        weights := [("A", 1)]
        correlation_matrix :=
          [⟨"A", "A", 1⟩, ⟨"A", "B", 0⟩, ⟨"B", "A", 0⟩, ⟨"B", "B", 1⟩]
        chart_data :=
          [⟨"d0", [("A", JsNum.num 1)], JsNum.num 1⟩,
           ⟨"d1", [("A", JsNum.num 2)], JsNum.num 2⟩]
        individual_metrics := [("A", ⟨5, 6, 7, 1, -3, []⟩)] } := by
  simp [analyzePortfolioCore, fallbackChart, fallbackPoint, fbStep, weightJs,
    jsDiv, jsAdd, jsMul, buildCorrelationArray, corrLookupJs,
    buildIndividualMetrics, respC7, alookup, List.enum, List.enumFrom]
  norm_num

/-- C7, witness: B is findable nowhere in the assembled result. -/
theorem C7_silent_omission_witness :
    alookup ((analyzePortfolioCore ["A", "B"] "equal_weight" "monthly"
      respC7).individual_metrics) "B" = none ∧
    (respC7.chart_data = none →
      ∀ pt ∈ (analyzePortfolioCore ["A", "B"] "equal_weight" "monthly"
        respC7).chart_data,
        alookup pt.symbolVals "B" = none) :=
  C7_silent_omission ["A", "B"] "equal_weight" "monthly" respC7 "B"
    (by simp [respC7, alookup]) (by simp [respC7, alookup])

/-! ## Claim C2 -/

/-- The symbol loop of the fallback chart agrees with the spec-side
filterMap/fold presentation whenever every symbol has a weight and every
present history has a non-zero base price (so no `NaN`/`Infinity` special
arises). -/
theorem fb_fold_eq_spec (hs : Histories) (ws : Weights) (i : Nat) :
    ∀ (syms : List String) (L : List (String × JsNum)) (q : ℚ),
      (∀ s ∈ syms, (alookup ws s).isSome) →
      (∀ s ∈ syms,
        ((((alookup hs s).getD []).head?.map PricePoint.close).getD 1) ≠ 0) →
      syms.foldl (fbStep hs ws i) (L, JsNum.num q) =
        (L ++ syms.filterMap (specEntry hs i),
         JsNum.num (syms.foldl (specStep hs ws i) q)) := by
  intro syms
  induction syms with
  | nil =>
      intro L q _ _
      simp
  | cons a t ih =>
      intro L q hw hb
      have hwt : ∀ s ∈ t, (alookup ws s).isSome :=
        fun s hst => hw s (List.mem_cons_of_mem a hst)
      have hbt : ∀ s ∈ t,
          ((((alookup hs s).getD []).head?.map PricePoint.close).getD 1) ≠ 0 :=
        fun s hst => hb s (List.mem_cons_of_mem a hst)
      simp only [List.foldl_cons, List.filterMap_cons]
      cases hla : alookup hs a with
      | none =>
          simp only [fbStep, specEntry, specStep, hla, Option.elim_none,
            Option.none_bind]
          exact ih L q hwt hbt
      | some h =>
          cases hh : h.head? with
          | none =>
              simp only [fbStep, specEntry, specStep, hla, hh,
                Option.elim_some, Option.elim_none, Option.some_bind,
                Option.none_bind]
              exact ih L q hwt hbt
          | some p0 =>
              cases hg : h[i]? with
              | none =>
                  simp only [fbStep, specEntry, specStep, hla, hh, hg,
                    Option.elim_some, Option.elim_none, Option.some_bind,
                    Option.none_bind, Option.map_none']
                  exact ih L q hwt hbt
              | some pi =>
                  obtain ⟨wgt, hwa⟩ := Option.isSome_iff_exists.mp
                    (hw a (List.mem_cons_self a t))
                  have hb0 : p0.close ≠ 0 := by
                    have := hb a (List.mem_cons_self a t)
                    simpa [hla, hh] using this
                  simp only [fbStep, specEntry, specStep, specWeight, hla,
                    hh, hg, hwa, Option.elim_some, Option.some_bind,
                    Option.map_some', Option.getD_some, weightJs]
                  rw [jsDiv, if_neg hb0]
                  simp only [jsMul, jsAdd]
                  rw [ih (L ++ [(a, JsNum.num (pi.close / p0.close))])
                    (q + pi.close / p0.close * wgt) hwt hbt]
                  simp [List.append_assoc]

/-- The fallback chart equals the spec's static-weight reference series
whenever every requested symbol has a supplied weight and a non-zero base
price where it has a history. -/
theorem fallbackChart_eq_spec (symbols : List String) (hs : Histories)
    (ws : Weights)
    (hw : ∀ s ∈ symbols, (alookup ws s).isSome)
    (hb : ∀ s ∈ symbols,
      ((((alookup hs s).getD []).head?.map PricePoint.close).getD 1) ≠ 0) :
    fallbackChart symbols hs ws = specStaticWeightSeries symbols hs ws := by
  simp only [fallbackChart, specStaticWeightSeries]
  apply List.map_congr_left
  intro di _
  have hfold := fb_fold_eq_spec hs ws di.1 symbols [] 0 hw hb
  simp only [fallbackPoint, specStaticPoint, hfold]
  simp

/-- C2: with `chart_data` absent, the assembled chart series is exactly the
spec's static-weight reference computation — date axis from the first
symbol's history, per-symbol values `histories[s][i].close / histories[s][0].close`,
portfolio value accumulated as `normalizedValue * weights[s]`, and symbols
missing an index contributing nothing at that date. -/
theorem C2_fallback_static_weights (symbols : List String) (w r : String)
    (data : BackendResponse)
    (hcd : data.chart_data = none)
    (hw : ∀ s ∈ symbols, (alookup (data.weights.getD []) s).isSome)
    (hb : ∀ s ∈ symbols,
      ((((alookup data.histories s).getD []).head?.map PricePoint.close).getD 1) ≠ 0) :
    (analyzePortfolioCore symbols w r data).chart_data =
      specStaticWeightSeries symbols data.histories (data.weights.getD []) := by
  rw [chart_data_def, hcd]
  exact fallbackChart_eq_spec symbols data.histories (data.weights.getD []) hw hb

/-- Backend response realising the spec's worked example: 3-day histories
A = [10, 11, 12], B = [20, 18, 22], weights 0.5/0.5, no `chart_data`. -/
def respAB : BackendResponse :=
  { correlation_matrix := []
    portfolio_volatility := 0
    diversification_ratio := 0
    individual_metrics := []
    portfolio_metrics := mZero
    weights := some [("A", 1/2), ("B", 1/2)]
    histories := [("A", [⟨"d0", 10⟩, ⟨"d1", 11⟩, ⟨"d2", 12⟩]),
                  ("B", [⟨"d0", 20⟩, ⟨"d1", 18⟩, ⟨"d2", 22⟩])]
    chart_data := none }

/-- C2, witness: the spec's worked example — day0 {A 1, B 1, portfolio 1},
day1 {A 1.1, B 0.9, portfolio 1}, day2 {A 1.2, B 1.1, portfolio 1.15}. -/
theorem C2_fallback_static_weights_witness :
    (analyzePortfolioCore ["A", "B"] "equal_weight" "monthly" respAB).chart_data =
      [⟨"d0", [("A", JsNum.num 1), ("B", JsNum.num 1)], JsNum.num 1⟩,
       ⟨"d1", [("A", JsNum.num (11/10)), ("B", JsNum.num (9/10))], JsNum.num 1⟩,
       ⟨"d2", [("A", JsNum.num (6/5)), ("B", JsNum.num (11/10))], JsNum.num (23/20)⟩] :=
  (C2_fallback_static_weights ["A", "B"] "equal_weight" "monthly" respAB rfl
      (by simp [respAB, alookup])
      (by simp [respAB, alookup])).trans
    (by simp [specStaticWeightSeries, specStaticPoint, specEntry, specStep,
        specWeight, respAB, alookup, List.enum, List.enumFrom]
        norm_num)

/-! ## Claim C5 -/

/-- Length of a flatMap whose blocks all have the same length. -/
theorem flatMap_fixed_length {α β : Type} (f : α → List β) (N : Nat)
    (hN : ∀ a, (f a).length = N) :
    ∀ l : List α, (l.flatMap f).length = l.length * N := by
  intro l
  induction l with
  | nil => simp
  | cons a t ih =>
      simp only [List.flatMap_cons, List.length_append, List.length_cons,
        hN a, ih]
      ring

/-- Row-major indexing into a flatMap whose blocks all have the same
length. -/
theorem flatMap_fixed_getElem {α β : Type} (f : α → List β) (N : Nat)
    (hN : ∀ a, (f a).length = N) :
    ∀ (l : List α) (i j : Nat), j < N →
      (l.flatMap f)[i * N + j]? = l[i]?.bind (fun a => (f a)[j]?) := by
  intro l
  induction l with
  | nil =>
      intro i j _
      simp
  | cons a t ih =>
      intro i j hj
      cases i with
      | zero =>
          simp only [List.flatMap_cons, Nat.zero_mul, Nat.zero_add]
          rw [List.getElem?_append_left (by rw [hN a]; exact hj)]
          simp
      | succ i =>
          simp only [List.flatMap_cons]
          rw [List.getElem?_append_right (by rw [hN a, Nat.succ_mul]; omega)]
          have harith : (i + 1) * N + j - (f a).length = i * N + j := by
            rw [hN a, Nat.succ_mul]; omega
          rw [harith]
          simpa using ih i j hj

/-- C5: the correlation array has a defined entry for all N² ordered pairs,
laid out in row-major order over the SymbolSet, and each off-diagonal entry
is the supplied value when the pair exists in the partial mapping and 0
otherwise. -/
theorem C5_row_major (symbols : List String) (cm : CorrMatrix)
    (hlen2 : 2 ≤ symbols.length) (hlen10 : symbols.length ≤ 10)
    (i j : Nat) (hi : i < symbols.length) (hj : j < symbols.length) :
    (buildCorrelationArray symbols cm).length =
      symbols.length * symbols.length ∧
    (buildCorrelationArray symbols cm)[i * symbols.length + j]? =
      some ⟨symbols[i], symbols[j], corrLookupJs cm symbols[i] symbols[j]⟩ ∧
    (symbols[i] ≠ symbols[j] →
      corrLookupJs cm symbols[i] symbols[j] =
        ((alookup cm symbols[i]).bind
          (fun row => alookup row symbols[j])).getD 0) := by
  have hN : ∀ a, (symbols.map
      (fun a2 => (⟨a, a2, corrLookupJs cm a a2⟩ : CorrelationEntry))).length =
      symbols.length := fun a => by simp
  refine ⟨?_, ?_, ?_⟩
  · simpa only [buildCorrelationArray] using
      flatMap_fixed_length _ symbols.length hN symbols
  · simp only [buildCorrelationArray]
    rw [flatMap_fixed_getElem _ symbols.length hN symbols i j hj,
      List.getElem?_eq_getElem hi]
    simp [List.getElem?_eq_getElem hj]
  · intro hne
    simp only [corrLookupJs]
    cases hb : (alookup cm symbols[i]).bind (fun row => alookup row symbols[j]) with
    | none => simp [hne]
    | some v =>
        by_cases hv : v = 0
        · subst hv
          simp [hne]
        · simp [hne, hv]

/-- Partial correlation mapping supplying only the (A, B) direction. -/
def cmC5 : CorrMatrix := [("A", [("B", 3/4)])]

/-- C5, witness: the 2-symbol instantiation at row 0, column 1. -/
theorem C5_row_major_witness :
    (buildCorrelationArray ["A", "B"] cmC5).length = 4 ∧
    (buildCorrelationArray ["A", "B"] cmC5)[1]? =
      some ⟨"A", "B", corrLookupJs cmC5 "A" "B"⟩ ∧
    ("A" ≠ "B" →
      corrLookupJs cmC5 "A" "B" =
        ((alookup cmC5 "A").bind (fun row => alookup row "B")).getD 0) :=
  C5_row_major ["A", "B"] cmC5 (by decide) (by decide) 0 1 (by decide) (by decide)

end QuantDashboard
